import Mathlib

/-!
Verification development for the Bitcoin-price MCP server
(`src/index.ts`).  The TypeScript source is shallowly embedded: the two
provider functions, the fallback orchestrator, the tool registry, and the
HTTP route handlers become pure Lean functions.  External effects (the
environment variable, the two outbound HTTP calls, and the outcome of
`JSON.parse` on the request body) are passed in explicitly as values of a
`World` structure resp. as an `Except` parameter.  JavaScript numbers are
modelled as exact rationals.
-/

/-! ## Decimal digit strings

Helpers producing the decimal-digit representation of a natural number,
used both by the model of `Number.prototype.toFixed` and by the model of
string conversion.  The fuel argument makes the recursion structural; the
wrapper supplies fuel that can never run out (`n` needs at most `n + 1`
divisions by ten). -/

/-- The character for a single decimal digit `d < 10`. -/
def digitChar (d : ℕ) : Char := Char.ofNat (48 + d)

/-- Decimal digits of `n`, most significant first; `[]` for `n = 0`.
`fuel` only bounds the recursion depth. -/
def natDigitsAux : ℕ → ℕ → List Char
  | 0, _ => []
  | f + 1, n => if n = 0 then [] else natDigitsAux f (n / 10) ++ [digitChar (n % 10)]

/-- Decimal-digit representation of `n` (`"0"` for zero), as a char list. -/
def natDigitsStr (n : ℕ) : List Char :=
  if n = 0 then ['0'] else natDigitsAux (n + 1) n

/-! ## `Number.prototype.toFixed(2)`

Model of ECMAScript `toFixed` with `fractionDigits = 2` in its
fixed-notation branch (`|x| < 10^21`, which covers every Bitcoin price,
percent change and market cap; at or above that bound JavaScript falls
back to `Number::toString`).  The ECMAScript algorithm: strip the sign,
pick the integer `n` with `n / 100` as close as possible to `x` (ties to
the larger `n`, i.e. half-up for the now nonnegative `x`), write the
digits of `n` left-padded with zeros to at least three digits, and insert
the decimal point before the last two.  The upstream JavaScript number is
modelled as an exact rational. -/

/-- Padded digit list of the scaled-and-rounded value: digits of
`floor(|q| * 100 + 1/2)` left-padded with `'0'` to length at least 3.
The rounding is computed directly on the numerator and denominator as
`(200 * |q.num| + q.den) / (2 * q.den)` in ℕ: a floor needs no
normalization of the scaled fraction. -/
def toFixed2Digits (q : ℚ) : List Char :=
  let n : ℕ := (200 * q.num.natAbs + q.den) / (2 * q.den)
  let m := natDigitsStr n
  List.replicate (3 - m.length) '0' ++ m

/-- ECMAScript `x.toFixed(2)` (fixed-notation branch) for `x : ℚ`. -/
def toFixed2 (q : ℚ) : String :=
  let mp := toFixed2Digits q
  let sign : List Char := if q < 0 then ['-'] else []
  String.mk (sign ++ mp.take (mp.length - 2) ++ '.' :: mp.drop (mp.length - 2))

/-- Checks that a string ends in a decimal point followed by exactly two
digit characters, and that no other decimal point occurs: the shape of a
value formatted with exactly two fraction digits. -/
def twoFracDigits (s : String) : Bool :=
  match s.data.reverse with
  | c2 :: c1 :: dot :: rest =>
      c1.isDigit && c2.isDigit && (dot == '.') && rest.all (fun c => c != '.')
  | _ => false

/-! ## `Date.prototype.toISOString`

CoinGecko reports its timestamp in epoch seconds; the source converts it
with `new Date(t * 1000).toISOString()`.  This is the proleptic Gregorian
calendar in UTC.  `civilFromDays` is the standard days-to-civil-date
conversion used by ECMAScript's date algorithms. -/

/-- Convert a count of days since 1970-01-01 to `(year, month, day)` in
the proleptic Gregorian calendar. -/
def civilFromDays (z0 : ℤ) : ℤ × ℤ × ℤ :=
  let z := z0 + 719468
  let era := Int.fdiv z 146097
  let doe := z - era * 146097
  let yoe := (doe - doe / 1460 + doe / 36524 - doe / 146096) / 365
  let y := yoe + era * 400
  let doy := doe - (365 * yoe + yoe / 4 - yoe / 100)
  let mp := (5 * doy + 2) / 153
  let d := doy - (153 * mp + 2) / 5 + 1
  let m := if mp < 10 then mp + 3 else mp - 9
  (if m ≤ 2 then y + 1 else y, m, d)

/-- Decimal representation of `n` left-padded with zeros to `width`. -/
def padNat (width n : ℕ) : String :=
  let d := natDigitsStr n
  String.mk (List.replicate (width - d.length) '0' ++ d)

/-- Year field of an ISO string: four digits for 0..9999, otherwise the
expanded six-digit form with an explicit sign, as ECMAScript produces. -/
def isoYear (y : ℤ) : String :=
  if 0 ≤ y ∧ y ≤ 9999 then padNat 4 y.toNat
  else (if y < 0 then "-" else "+") ++ padNat 6 y.natAbs

/-- `new Date(ms).toISOString()` for a millisecond timestamp known to be
in the valid range. -/
def toISOString (ms : ℤ) : String :=
  let days := Int.fdiv ms 86400000
  let t : ℕ := (Int.emod ms 86400000).toNat
  let ymd := civilFromDays days
  isoYear ymd.1 ++ "-" ++ padNat 2 ymd.2.1.toNat ++ "-" ++ padNat 2 ymd.2.2.toNat ++
    "T" ++ padNat 2 (t / 3600000) ++ ":" ++ padNat 2 (t / 60000 % 60) ++ ":" ++
    padNat 2 (t / 1000 % 60) ++ "." ++ padNat 3 (t % 1000) ++ "Z"

/-! ## Data model: provider responses, errors, the price record -/

/-- The fields the source reads out of a well-formed CoinMarketCap
response, at `response.data.data.BTC.quote.USD`. -/
structure CMCQuote where
  price : ℚ
  percent_change_24h : ℚ
  market_cap : ℚ
  last_updated : String
deriving DecidableEq

/-- Body of a successful (HTTP 2xx) CoinMarketCap response: either the
shape the source's access chain expects, or anything else (in which case
the access chain throws a `TypeError`). -/
inductive CMCPayload
  | wellFormed (q : CMCQuote)
  | malformed (desc : String)
deriving DecidableEq

/-- The fields the source reads out of a well-formed CoinGecko response,
at `response.data.bitcoin`; `last_updated_at` is in epoch seconds. -/
structure GeckoQuote where
  usd : ℚ
  usd_24h_change : ℚ
  usd_market_cap : ℚ
  last_updated_at : ℤ
deriving DecidableEq

/-- Body of a successful CoinGecko response (well-formed or not). -/
inductive GeckoPayload
  | wellFormed (g : GeckoQuote)
  | malformed (desc : String)
deriving DecidableEq

/-- Kinds of errors axios throws: a transport-level network failure, or a
non-2xx HTTP status. -/
inductive AxiosKind
  | network
  | badStatus (code : ℕ)
deriving DecidableEq

/-- JavaScript exception values observable in this program: plain
`Error`s, raw axios transport errors, `TypeError`s from property access
on an unexpected payload shape, `RangeError` from `toISOString` on an
invalid date, and `SyntaxError` from `JSON.parse`. -/
inductive JsError
  | jsErr (msg : String)
  | axios (k : AxiosKind) (msg : String)
  | typeError (msg : String)
  | rangeError (msg : String)
  | parseError (msg : String)
deriving DecidableEq

/-- The `message` property of a JavaScript error. -/
def JsError.message : JsError → String
  | .jsErr m => m
  | .axios _ m => m
  | .typeError m => m
  | .rangeError m => m
  | .parseError m => m

/-- A provider network call, recorded in the trace of an invocation. -/
inductive NetCall
  | cmc
  | gecko
deriving DecidableEq

/-- External state of one invocation: the environment variable and the
outcomes the two upstream endpoints would produce if called. -/
structure World where
  cmcApiKey : Option String
  cmcNet : Except JsError CMCPayload
  geckoNet : Except JsError GeckoPayload

/-- The canonical price record the source returns (all fields already
formatted as strings). -/
structure PriceRecord where
  price : String
  percent_change_24h : String
  market_cap : String
  last_updated : String
  source : String
deriving DecidableEq

/-! ## Provider functions and the fallback orchestrator

Each function returns its result (`Except`, mirroring JS throw) together
with the list of provider network calls it performed. -/

/-- Message of the error thrown when the API key is absent. -/
def missingKeyMsg : String := "COINMARKETCAP_API_KEY not found in environment variables"

/-- `getBitcoinPriceFromCMC`: checks `process.env.COINMARKETCAP_API_KEY`
(JS falsiness: absent or empty string both fail) before any network call;
on a network/status error rethrows the raw error; on a malformed payload
the access chain throws a `TypeError`; on success builds the record with
`toFixed(2)` formatting and `source: "CoinMarketCap"`.  The source's
`catch` block only logs and rethrows, so errors pass through unchanged. -/
def getBitcoinPriceFromCMC (w : World) : Except JsError PriceRecord × List NetCall :=
  match w.cmcApiKey with
  | none => (Except.error (JsError.jsErr missingKeyMsg), [])
  | some key =>
    if key = "" then (Except.error (JsError.jsErr missingKeyMsg), [])
    else
      match w.cmcNet with
      | Except.error e => (Except.error e, [NetCall.cmc])
      | Except.ok (CMCPayload.malformed d) => (Except.error (JsError.typeError d), [NetCall.cmc])
      | Except.ok (CMCPayload.wellFormed q) =>
          (Except.ok ⟨toFixed2 q.price, toFixed2 q.percent_change_24h, toFixed2 q.market_cap,
            q.last_updated, "CoinMarketCap"⟩, [NetCall.cmc])

/-- `getBitcoinPriceFromCoinGecko`: no credential needed; on success
formats the numbers with `toFixed(2)`, converts the epoch-seconds
timestamp via `new Date(t * 1000).toISOString()` (which throws a
`RangeError` outside the representable date range), and sets
`source: "CoinGecko"`; its `catch` also only logs and rethrows. -/
def getBitcoinPriceFromCoinGecko (w : World) : Except JsError PriceRecord × List NetCall :=
  match w.geckoNet with
  | Except.error e => (Except.error e, [NetCall.gecko])
  | Except.ok (GeckoPayload.malformed d) => (Except.error (JsError.typeError d), [NetCall.gecko])
  | Except.ok (GeckoPayload.wellFormed g) =>
      let ms := 1000 * g.last_updated_at
      if ms.natAbs ≤ 8640000000000000 then
        (Except.ok ⟨toFixed2 g.usd, toFixed2 g.usd_24h_change, toFixed2 g.usd_market_cap,
          toISOString ms, "CoinGecko"⟩, [NetCall.gecko])
      else (Except.error (JsError.rangeError "Invalid time value"), [NetCall.gecko])

/-- Message of the uniform error thrown when both providers fail. -/
def allFailedMsg : String := "Failed to fetch Bitcoin price"

/-- `getBitcoinPrice`: try CoinMarketCap; on any failure fall back to
CoinGecko; if that also fails, throw the single uniform
`Error("Failed to fetch Bitcoin price")`. -/
def getBitcoinPrice (w : World) : Except JsError PriceRecord × List NetCall :=
  match getBitcoinPriceFromCMC w with
  | (Except.ok r, t) => (Except.ok r, t)
  | (Except.error _, t1) =>
    match getBitcoinPriceFromCoinGecko w with
    | (Except.ok r, t2) => (Except.ok r, t1 ++ t2)
    | (Except.error _, t2) => (Except.error (JsError.jsErr allFailedMsg), t1 ++ t2)

/-! ## JSON serialization and the tool registry

`JSON.stringify` with default arguments: object keys in insertion order,
no whitespace, strings quoted with the standard escapes.  The registry
value `mcp` is transcribed field by field from the source. -/

/-- JSON values as the registry and the response bodies need them. -/
inductive Json
  | str (s : String)
  | arr (elems : List Json)
  | obj (fields : List (String × Json))

/-- Lowercase hexadecimal digit. -/
def hexDigitChar (n : ℕ) : Char :=
  if n < 10 then Char.ofNat (48 + n) else Char.ofNat (87 + n)

/-- Escape one character as `JSON.stringify` quoting does. -/
def jsonEscapeChar (c : Char) : List Char :=
  if c = '"' then ['\\', '"']
  else if c = '\\' then ['\\', '\\']
  else if c = Char.ofNat 8 then ['\\', 'b']
  else if c = Char.ofNat 9 then ['\\', 't']
  else if c = Char.ofNat 10 then ['\\', 'n']
  else if c = Char.ofNat 12 then ['\\', 'f']
  else if c = Char.ofNat 13 then ['\\', 'r']
  else if c.toNat < 32 then
    ['\\', 'u', '0', '0', hexDigitChar (c.toNat / 16), hexDigitChar (c.toNat % 16)]
  else [c]

/-- Quote a string as a JSON string literal. -/
def jsonQuote (s : String) : String :=
  String.mk ('"' :: (s.data.map jsonEscapeChar).flatten ++ ['"'])

/-- Join strings with commas. -/
def joinComma : List String → String
  | [] => ""
  | [s] => s
  | s :: rest => s ++ "," ++ joinComma rest

mutual

/-- Serializer for one JSON value. -/
def jsonStr : Json → String
  | Json.str s => jsonQuote s
  | Json.arr es => "[" ++ jsonStrArr es ++ "]"
  | Json.obj fs => "\x7b" ++ jsonStrObj fs ++ "\x7d"

/-- Serializer for array elements, comma separated. -/
def jsonStrArr : List Json → String
  | [] => ""
  | [j] => jsonStr j
  | j :: rest => jsonStr j ++ "," ++ jsonStrArr rest

/-- Serializer for object fields, comma separated. -/
def jsonStrObj : List (String × Json) → String
  | [] => ""
  | [(k, v)] => jsonQuote k ++ ":" ++ jsonStr v
  | (k, v) :: rest => jsonQuote k ++ ":" ++ jsonStr v ++ "," ++ jsonStrObj rest

end

/-- `JSON.stringify` (default arguments). -/
def Json.stringify (j : Json) : String := jsonStr j

/-- The MCP tool registry constant, transcribed from the source. -/
def mcp : Json :=
  Json.obj [
    ("schemaVersion", Json.str "2.0"),
    ("tools", Json.obj [
      ("get-bitcoin-price", Json.obj [
        ("description", Json.str "Get the current price of Bitcoin (BTC) in USD"),
        ("input", Json.obj [
          ("type", Json.str "object"),
          ("properties", Json.obj []),
          ("required", Json.arr [])]),
        ("output", Json.obj [
          ("type", Json.str "object"),
          ("properties", Json.obj [
            ("price", Json.obj [
              ("type", Json.str "string"),
              ("description", Json.str "Current price of Bitcoin in USD")]),
            ("percent_change_24h", Json.obj [
              ("type", Json.str "string"),
              ("description", Json.str "24-hour percent change in Bitcoin price")]),
            ("market_cap", Json.obj [
              ("type", Json.str "string"),
              ("description", Json.str "Current market cap of Bitcoin in USD")]),
            ("last_updated", Json.obj [
              ("type", Json.str "string"),
              ("description", Json.str "Timestamp of when the price was last updated")]),
            ("source", Json.obj [
              ("type", Json.str "string"),
              ("description", Json.str "Data source (CoinMarketCap or CoinGecko)")])]),
          ("required", Json.arr [Json.str "price", Json.str "percent_change_24h",
            Json.str "market_cap", Json.str "last_updated", Json.str "source"])])])])]

/-- Body of an error response: `JSON.stringify({error:{message}})`. -/
def errorBody (msg : String) : String :=
  Json.stringify (Json.obj [("error", Json.obj [("message", Json.str msg)])])

/-- Body of a success response: `JSON.stringify({result: record})`. -/
def resultBody (r : PriceRecord) : String :=
  Json.stringify (Json.obj [("result", Json.obj [
    ("price", Json.str r.price),
    ("percent_change_24h", Json.str r.percent_change_24h),
    ("market_cap", Json.str r.market_cap),
    ("last_updated", Json.str r.last_updated),
    ("source", Json.str r.source)])])

/-! ## Parsed request bodies

`JSON.parse` is an external builtin; the embedding passes its outcome
(a JSON value, or the thrown `SyntaxError`) to the handler.  Property
access and template-literal string conversion are modelled on the parsed
value. -/

/-- A parsed JSON value, as `JSON.parse` can produce it. -/
inductive JsonVal
  | null
  | bool (b : Bool)
  | num (q : ℚ)
  | str (s : String)
  | arr (elems : List JsonVal)
  | obj (fields : List (String × JsonVal))

/-- JavaScript property read `v[k]`: throws a `TypeError` on `null`,
yields the property (last duplicate wins, as in `JSON.parse`) on an
object, and `undefined` (here `none`) on every other value. -/
def jsGetProp (v : JsonVal) (k : String) : Except JsError (Option JsonVal) :=
  match v with
  | JsonVal.null =>
      Except.error (JsError.typeError ("Cannot read properties of null (reading " ++ k ++ ")"))
  | JsonVal.obj fs =>
      Except.ok (fs.foldl (fun acc p => if p.1 = k then some p.2 else acc) none)
  | _ => Except.ok none

/-- Display of a number in a template literal.  Modelled from the spec of
the external builtin: the shortest plain decimal form for rationals with
a terminating decimal expansion (the only ones `JSON.parse` produces);
JavaScript's exponential-notation thresholds are not modelled, and
non-terminating rationals (unreachable from parsed input) fall back to a
fraction form. -/
def ratDisplay (q : ℚ) : String :=
  let sign := if q < 0 then "-" else ""
  let n := q.num.natAbs
  let d := q.den
  if d = 1 then sign ++ String.mk (natDigitsStr n)
  else match (List.range 1200).find? (fun k => 10 ^ (k + 1) % d = 0) with
    | some k0 =>
        let k := k0 + 1
        let scaled := n * 10 ^ k / d
        let ds := natDigitsStr scaled
        let padded := List.replicate (k + 1 - ds.length) '0' ++ ds
        sign ++ String.mk (padded.take (padded.length - k)) ++ "." ++
          String.mk (padded.drop (padded.length - k))
    | none => sign ++ String.mk (natDigitsStr n) ++ "/" ++ String.mk (natDigitsStr d)

mutual

/-- JavaScript `String(v)` / template-literal interpolation: strings pass
through, arrays join their elements with commas (`null` elements become
empty), objects print as `[object Object]`. -/
def jsDisplay : JsonVal → String
  | JsonVal.null => "null"
  | JsonVal.bool b => if b then "true" else "false"
  | JsonVal.num q => ratDisplay q
  | JsonVal.str s => s
  | JsonVal.arr es => jsDisplayArr es
  | JsonVal.obj _ => "[object Object]"

/-- `Array.prototype.join(",")` on displayed elements. -/
def jsDisplayArr : List JsonVal → String
  | [] => ""
  | [JsonVal.null] => ""
  | [e] => jsDisplay e
  | JsonVal.null :: rest => "," ++ jsDisplayArr rest
  | e :: rest => jsDisplay e ++ "," ++ jsDisplayArr rest

end

/-- Interpolation of `request.name`, which may be `undefined`. -/
def displayOpt : Option JsonVal → String
  | none => "undefined"
  | some v => jsDisplay v

/-! ## The HTTP layer -/

/-- A completed HTTP response: status code and body. -/
structure HttpResponse where
  status : ℕ
  body : String
deriving DecidableEq

/-- The reply to one connection: a single response, or an SSE stream
described by the frames written as a function of how long the client
stays connected. -/
inductive ConnReply
  | done (resp : HttpResponse)
  | stream (writes : ℕ → List String)

/-- Whether the value of `request.name` strictly equals the registered
tool name (JS `===` with a string is true only for that very string). -/
def isToolCall : Option JsonVal → Bool
  | some (JsonVal.str s) => s = "get-bitcoin-price"
  | _ => false

/-- The 400 response of the unknown-tool branch. -/
def unknownToolResponse (nameVal : Option JsonVal) : HttpResponse :=
  ⟨400, errorBody ("Unknown tool: " ++ displayOpt nameVal)⟩

/-- The `req.on("end")` callback of `POST /execute`: parse outcome in,
response out.  The surrounding `try`/`catch` turns any thrown error
(parse failure, property access on `null`, or the orchestrator's
failure) into a 500 response carrying the error's message. -/
def executeResponse (parsed : Except JsError JsonVal) (w : World) : HttpResponse :=
  match parsed with
  | Except.error e => ⟨500, errorBody e.message⟩
  | Except.ok v =>
    match jsGetProp v "name" with
    | Except.error e => ⟨500, errorBody e.message⟩
    | Except.ok nameVal =>
      match nameVal with
      | some (JsonVal.str s) =>
          if s = "get-bitcoin-price" then
            match (getBitcoinPrice w).1 with
            | Except.ok r => ⟨200, resultBody r⟩
            | Except.error e => ⟨500, errorBody e.message⟩
          else unknownToolResponse (some (JsonVal.str s))
      | other => unknownToolResponse other

/-- The first SSE write: the registry as a `data:` event. -/
def discoveryFrame : String := "data: " ++ Json.stringify mcp ++ "\n\n"

/-- A heartbeat write (an SSE comment). -/
def heartbeatFrame : String := ":heartbeat\n\n"

/-- Writes the `/events` handler performs on a connection that stays open
for `d` time units (seconds): the registry immediately at open, then the
30-second `setInterval` heartbeat at every positive multiple of 30 before
disconnect. -/
def sseWrites (d : ℕ) : List String :=
  discoveryFrame ::
    ((List.range d).filter (fun t => t % 30 == 0 && t != 0)).map (fun _ => heartbeatFrame)

/-- Whether an SSE write is a `data:` event. -/
def isDataFrame (s : String) : Bool := s.data.take 6 == "data: ".data

/-- Whether an SSE write is the heartbeat comment. -/
def isHeartbeatFrame (s : String) : Bool := s == ":heartbeat\n\n"

/-- The server's method-and-path dispatch, in source order: OPTIONS
preflight, `GET /events`, `GET /`, `GET /health`, `POST /execute`,
otherwise 404. -/
def handleRequest (method url : String) (parsed : Except JsError JsonVal) (w : World) :
    ConnReply :=
  if method = "OPTIONS" then ConnReply.done ⟨204, ""⟩
  else if method = "GET" ∧ url = "/events" then ConnReply.stream sseWrites
  else if method = "GET" ∧ url = "/" then ConnReply.done ⟨200, Json.stringify mcp⟩
  else if method = "GET" ∧ url = "/health" then
    ConnReply.done ⟨200, Json.stringify (Json.obj [("status", Json.str "healthy")])⟩
  else if method = "POST" ∧ url = "/execute" then ConnReply.done (executeResponse parsed w)
  else ConnReply.done ⟨404, errorBody "Not found"⟩

/-! ## Shape lemmas for `toFixed2` -/

set_option maxRecDepth 8000

/-- Digit characters are digits. -/
theorem digitChar_isDigit (d : ℕ) (h : d < 10) : (digitChar d).isDigit = true := by
  interval_cases d <;> decide

/-- All characters produced by `natDigitsAux` are digits. -/
theorem natDigitsAux_all (f : ℕ) : ∀ n, (natDigitsAux f n).all Char.isDigit = true := by
  induction f with
  | zero => intro n; rfl
  | succ f ih =>
    intro n
    unfold natDigitsAux
    split
    · rfl
    · simp only [List.all_append, ih]
      simp [digitChar_isDigit (n % 10) (Nat.mod_lt n (by norm_num))]

/-- All characters of a decimal representation are digits. -/
theorem natDigitsStr_all (n : ℕ) : (natDigitsStr n).all Char.isDigit = true := by
  unfold natDigitsStr
  split
  · decide
  · exact natDigitsAux_all (n + 1) n

/-- All characters of the padded digit list are digits. -/
theorem toFixed2Digits_all (q : ℚ) : (toFixed2Digits q).all Char.isDigit = true := by
  unfold toFixed2Digits
  simp only [List.all_append, natDigitsStr_all, Bool.and_true]
  simp [List.all_eq_true, List.mem_replicate]

/-- The padded digit list has at least three characters. -/
theorem toFixed2Digits_len (q : ℚ) : 3 ≤ (toFixed2Digits q).length := by
  unfold toFixed2Digits
  simp only [List.length_append, List.length_replicate]
  omega

/-- A digit character is not a decimal point. -/
theorem digit_ne_dot (c : Char) (h : c.isDigit = true) : (c != '.') = true := by
  rw [bne_iff_ne]
  rintro rfl
  exact absurd h (by decide)

/-- Every string `toFixed2` produces has exactly two fraction digits. -/
theorem toFixed2_twoFrac (q : ℚ) : twoFracDigits (toFixed2 q) = true := by
  have hall := toFixed2Digits_all q
  have hlen := toFixed2Digits_len q
  rw [List.all_eq_true] at hall
  have hdl : ((toFixed2Digits q).drop ((toFixed2Digits q).length - 2)).length = 2 := by
    rw [List.length_drop]; omega
  obtain ⟨c1, c2, hdrop⟩ := List.length_eq_two.mp hdl
  have hc1 : c1.isDigit = true := hall c1 (List.drop_subset _ _ (by rw [hdrop]; simp))
  have hc2 : c2.isDigit = true := hall c2 (List.drop_subset _ _ (by rw [hdrop]; simp))
  simp only [toFixed2]
  rw [hdrop]
  unfold twoFracDigits
  simp only [String.data, List.append_assoc, List.reverse_append, List.reverse_cons,
    List.reverse_nil, List.nil_append, List.cons_append, List.singleton_append]
  simp only [hc1, hc2, beq_self_eq_true, Bool.and_true, Bool.true_and, List.all_append,
    List.all_reverse]
  rw [Bool.and_eq_true]
  constructor
  · rw [List.all_eq_true]
    intro c hc
    exact digit_ne_dot c (hall c (List.take_subset _ _ hc))
  · by_cases hq : q < 0 <;> simp [hq]

/-! ## Inversion lemmas for the provider functions -/

/-- A successful CoinMarketCap fetch can only arise from a well-formed
payload, makes exactly the one CMC network call, and formats every field. -/
theorem cmcOk_inv (w : World) (r : PriceRecord)
    (h : (getBitcoinPriceFromCMC w).1 = Except.ok r) :
    ∃ q, w.cmcNet = Except.ok (CMCPayload.wellFormed q) ∧
      getBitcoinPriceFromCMC w = (Except.ok r, [NetCall.cmc]) ∧
      r = ⟨toFixed2 q.price, toFixed2 q.percent_change_24h, toFixed2 q.market_cap,
        q.last_updated, "CoinMarketCap"⟩ := by
  obtain ⟨key, cnet, gnet⟩ := w
  cases key with
  | none => simp [getBitcoinPriceFromCMC] at h
  | some k =>
    by_cases hk : k = ""
    · simp [getBitcoinPriceFromCMC, hk] at h
    · cases cnet with
      | error e => simp [getBitcoinPriceFromCMC, hk] at h
      | ok p =>
        cases p with
        | malformed d => simp [getBitcoinPriceFromCMC, hk] at h
        | wellFormed q =>
          refine ⟨q, rfl, ?_, ?_⟩ <;>
            simp_all [getBitcoinPriceFromCMC, hk]

/-- A failed CoinMarketCap fetch returns the error unchanged, with either
no network call (missing credential) or exactly one. -/
theorem cmcErr_inv (w : World) (e : JsError)
    (h : (getBitcoinPriceFromCMC w).1 = Except.error e) :
    getBitcoinPriceFromCMC w = (Except.error e, []) ∨
      getBitcoinPriceFromCMC w = (Except.error e, [NetCall.cmc]) := by
  obtain ⟨key, cnet, gnet⟩ := w
  cases key with
  | none => left; simp_all [getBitcoinPriceFromCMC]
  | some k =>
    by_cases hk : k = ""
    · left; simp_all [getBitcoinPriceFromCMC, hk]
    · cases cnet with
      | error e0 => right; simp_all [getBitcoinPriceFromCMC, hk]
      | ok p =>
        cases p with
        | malformed d => right; simp_all [getBitcoinPriceFromCMC, hk]
        | wellFormed q => simp [getBitcoinPriceFromCMC, hk] at h

/-- The CoinGecko fetch always performs exactly its one network call. -/
theorem gecko_trace (w : World) : (getBitcoinPriceFromCoinGecko w).2 = [NetCall.gecko] := by
  obtain ⟨key, cnet, gnet⟩ := w
  cases gnet with
  | error e => rfl
  | ok p =>
    cases p with
    | malformed d => rfl
    | wellFormed g =>
      by_cases hr : (1000 * g.last_updated_at).natAbs ≤ 8640000000000000 <;>
        simp [getBitcoinPriceFromCoinGecko, hr]

/-- A successful CoinGecko fetch can only arise from a well-formed
payload and formats every field, with `source = "CoinGecko"`. -/
theorem geckoOk_inv (w : World) (r : PriceRecord)
    (h : (getBitcoinPriceFromCoinGecko w).1 = Except.ok r) :
    ∃ g, w.geckoNet = Except.ok (GeckoPayload.wellFormed g) ∧
      r = ⟨toFixed2 g.usd, toFixed2 g.usd_24h_change, toFixed2 g.usd_market_cap,
        toISOString (1000 * g.last_updated_at), "CoinGecko"⟩ := by
  obtain ⟨key, cnet, gnet⟩ := w
  cases gnet with
  | error e => simp [getBitcoinPriceFromCoinGecko] at h
  | ok p =>
    cases p with
    | malformed d => simp [getBitcoinPriceFromCoinGecko] at h
    | wellFormed g =>
      by_cases hr : (1000 * g.last_updated_at).natAbs ≤ 8640000000000000
      · refine ⟨g, rfl, ?_⟩
        simp_all [getBitcoinPriceFromCoinGecko, hr]
      · simp [getBitcoinPriceFromCoinGecko, hr] at h

/-! ## Claim C1 -/

/-- C1: for every invocation of the fallback lookup, if the primary
provider's call succeeds, the whole lookup returns that record with
`source = "CoinMarketCap"` and the network-call trace is exactly the one
CoinMarketCap call — the secondary provider is never called (its count in
the trace is zero). -/
theorem c1_primary_success (w : World) (r : PriceRecord)
    (h : (getBitcoinPriceFromCMC w).1 = Except.ok r) :
    getBitcoinPrice w = (Except.ok r, [NetCall.cmc]) ∧
      r.source = "CoinMarketCap" ∧
      (getBitcoinPrice w).2.countP (fun c => c == NetCall.gecko) = 0 := by
  obtain ⟨q, hnet, hfull, hr⟩ := cmcOk_inv w r h
  refine ⟨by simp [getBitcoinPrice, hfull], by rw [hr], ?_⟩
  simp [getBitcoinPrice, hfull]

/-- Example CoinMarketCap quote used by concrete worlds. -/
def cmcQuoteEx : CMCQuote :=
  ⟨mkRat 430001 10, mkRat 1 1, mkRat 5 1, "2024-01-01T00:00:00.000Z"⟩

/-- A world where the primary provider succeeds. -/
def wCmcOk : World :=
  ⟨some "demo-key", Except.ok (CMCPayload.wellFormed cmcQuoteEx),
    Except.error (JsError.jsErr "unused")⟩

/-- The record the primary provider produces in `wCmcOk`. -/
def recCmcOk : PriceRecord :=
  ⟨"43000.10", "1.00", "5.00", "2024-01-01T00:00:00.000Z", "CoinMarketCap"⟩

/-- Witness for C1 at a concrete world. -/
theorem c1_primary_success_witness :
    getBitcoinPrice wCmcOk = (Except.ok recCmcOk, [NetCall.cmc]) ∧
      recCmcOk.source = "CoinMarketCap" ∧
      (getBitcoinPrice wCmcOk).2.countP (fun c => c == NetCall.gecko) = 0 :=
  c1_primary_success wCmcOk recCmcOk (by rfl)

/-! ## Claim C2 -/

/-- What the fallback returns once the primary has failed: the secondary
result if it succeeded, otherwise the single uniform failure. -/
def fallbackOutcome (w : World) : Except JsError PriceRecord :=
  match (getBitcoinPriceFromCoinGecko w).1 with
  | Except.ok r => Except.ok r
  | Except.error _ => Except.error (JsError.jsErr allFailedMsg)

/-- The `source` field of a successful result, or the default for a
failure (so an equation with the default forces the field on success). -/
def sourceOr (d : String) : Except JsError PriceRecord → String
  | Except.ok r => r.source
  | Except.error _ => d

/-- C2: whenever the primary provider fails — for any reason, including
the missing credential — the secondary provider is attempted exactly once
(its trace count is 1), no provider is called more than once, the
invocation returns exactly the secondary outcome (so a secondary success
is returned as-is), and any successful secondary record carries
`source = "CoinGecko"`. -/
theorem c2_fallback_once (w : World) (e : JsError)
    (h : (getBitcoinPriceFromCMC w).1 = Except.error e) :
    (getBitcoinPrice w).2.countP (fun c => c == NetCall.gecko) = 1 ∧
      (getBitcoinPrice w).2.countP (fun c => c == NetCall.cmc) ≤ 1 ∧
      (getBitcoinPrice w).1 = fallbackOutcome w ∧
      sourceOr "CoinGecko" ((getBitcoinPriceFromCoinGecko w).1) = "CoinGecko" := by
  have htr := gecko_trace w
  have hsrc : sourceOr "CoinGecko" ((getBitcoinPriceFromCoinGecko w).1) = "CoinGecko" := by
    rcases hg : (getBitcoinPriceFromCoinGecko w).1 with e2 | r2
    · rfl
    · obtain ⟨g, _, hr⟩ := geckoOk_inv w r2 hg
      simp [sourceOr, hr]
  rcases hgf : getBitcoinPriceFromCoinGecko w with ⟨gres, gtr⟩
  rw [hgf] at htr
  subst htr
  rcases cmcErr_inv w e h with hfull | hfull <;>
    rcases gres with e2 | r2 <;>
      simp_all [getBitcoinPrice, fallbackOutcome, hfull, hgf]

/-- A world where the primary provider has no credential and the
secondary succeeds. -/
def wNoKey : World :=
  ⟨none, Except.error (JsError.jsErr "unused"),
    Except.ok (GeckoPayload.wellFormed ⟨mkRat 430001 10, mkRat (-25) 10, mkRat 5 1, 1700000000⟩)⟩

/-- Witness for C2 at a concrete world. -/
theorem c2_fallback_once_witness :
    (getBitcoinPrice wNoKey).2.countP (fun c => c == NetCall.gecko) = 1 ∧
      (getBitcoinPrice wNoKey).2.countP (fun c => c == NetCall.cmc) ≤ 1 ∧
      (getBitcoinPrice wNoKey).1 = fallbackOutcome wNoKey ∧
      sourceOr "CoinGecko" ((getBitcoinPriceFromCoinGecko wNoKey).1) = "CoinGecko" :=
  c2_fallback_once wNoKey (JsError.jsErr missingKeyMsg) (by rfl)

/-! ## Claim C9 -/

/-- C9: every successfully produced price record has its three numeric
fields formatted with exactly two fraction digits, whatever the precision
of the upstream rational value was. -/
theorem c9_two_fraction_digits (w : World) (r : PriceRecord)
    (h : (getBitcoinPrice w).1 = Except.ok r) :
    twoFracDigits r.price = true ∧ twoFracDigits r.percent_change_24h = true ∧
      twoFracDigits r.market_cap = true := by
  rcases hc : getBitcoinPriceFromCMC w with ⟨cres, ctr⟩
  rcases cres with e1 | r1
  · rcases hg : getBitcoinPriceFromCoinGecko w with ⟨gres, gtr⟩
    rcases gres with e2 | r2
    · simp [getBitcoinPrice, hc, hg] at h
    · have : r2 = r := by simp_all [getBitcoinPrice, hc, hg]
      subst this
      obtain ⟨g, _, hr⟩ := geckoOk_inv w r2 (by rw [hg])
      rw [hr]
      exact ⟨toFixed2_twoFrac g.usd, toFixed2_twoFrac g.usd_24h_change,
        toFixed2_twoFrac g.usd_market_cap⟩
  · have : r1 = r := by simp_all [getBitcoinPrice, hc]
    subst this
    obtain ⟨q, _, _, hr⟩ := cmcOk_inv w r1 (by rw [hc])
    rw [hr]
    exact ⟨toFixed2_twoFrac q.price, toFixed2_twoFrac q.percent_change_24h,
      toFixed2_twoFrac q.market_cap⟩

/-- Witness for C9: a concrete upstream value `43000.1` (one fraction
digit) yields the record field `"43000.10"` (exactly two). -/
theorem c9_two_fraction_digits_witness :
    (getBitcoinPrice wCmcOk).1 = Except.ok recCmcOk ∧ recCmcOk.price = "43000.10" ∧
      (twoFracDigits recCmcOk.price = true ∧
        twoFracDigits recCmcOk.percent_change_24h = true ∧
        twoFracDigits recCmcOk.market_cap = true) :=
  ⟨by rfl, by rfl, c9_two_fraction_digits wCmcOk recCmcOk (by rfl)⟩

/-! ## Claim C3 -/

/-- C3: if both providers fail — whatever their individual errors `e1`
and `e2` were — the lookup fails with the single uniform error whose
message is the constant `"Failed to fetch Bitcoin price"` (the conclusion
does not depend on `e1` or `e2`, so no per-provider diagnostics can leak
into it), and the `/execute` handler then returns a normal structured
response: status 500 (non-success, `≥ 400`) with body
`{"error":{"message":"Failed to fetch Bitcoin price"}}`. -/
theorem c3_all_failed_uniform (w : World) (v : JsonVal) (e1 e2 : JsError)
    (h1 : (getBitcoinPriceFromCMC w).1 = Except.error e1)
    (h2 : (getBitcoinPriceFromCoinGecko w).1 = Except.error e2)
    (hname : jsGetProp v "name" = Except.ok (some (JsonVal.str "get-bitcoin-price"))) :
    (getBitcoinPrice w).1 = Except.error (JsError.jsErr allFailedMsg) ∧
      (JsError.jsErr allFailedMsg).message = "Failed to fetch Bitcoin price" ∧
      executeResponse (Except.ok v) w = ⟨500, errorBody "Failed to fetch Bitcoin price"⟩ ∧
      Nat.ble 400 (executeResponse (Except.ok v) w).status = true := by
  have horch : (getBitcoinPrice w).1 = Except.error (JsError.jsErr allFailedMsg) := by
    rcases hgf : getBitcoinPriceFromCoinGecko w with ⟨gres, gtr⟩
    rw [hgf] at h2
    rcases cmcErr_inv w e1 h1 with hfull | hfull <;>
      rcases gres with e2x | r2 <;> simp_all [getBitcoinPrice, hfull, hgf]
  have hresp : executeResponse (Except.ok v) w = ⟨500, errorBody "Failed to fetch Bitcoin price"⟩ := by
    simp [executeResponse, hname, horch, JsError.message, allFailedMsg]
  refine ⟨horch, rfl, hresp, ?_⟩
  rw [hresp]
  decide

/-- A world where both providers fail. -/
def wBothFail : World :=
  ⟨some "demo-key", Except.error (JsError.axios AxiosKind.network "connect ECONNREFUSED"),
    Except.error (JsError.axios (AxiosKind.badStatus 429) "Request failed with status code 429")⟩

/-- The request body `{"name":"get-bitcoin-price","arguments":{}}`. -/
def reqToolCall : JsonVal :=
  JsonVal.obj [("name", JsonVal.str "get-bitcoin-price"), ("arguments", JsonVal.obj [])]

/-- Witness for C3 at a concrete world and request. -/
theorem c3_all_failed_uniform_witness :
    (getBitcoinPrice wBothFail).1 = Except.error (JsError.jsErr allFailedMsg) ∧
      (JsError.jsErr allFailedMsg).message = "Failed to fetch Bitcoin price" ∧
      executeResponse (Except.ok reqToolCall) wBothFail =
        ⟨500, errorBody "Failed to fetch Bitcoin price"⟩ ∧
      Nat.ble 400 (executeResponse (Except.ok reqToolCall) wBothFail).status = true :=
  c3_all_failed_uniform wBothFail reqToolCall
    (JsError.axios AxiosKind.network "connect ECONNREFUSED")
    (JsError.axios (AxiosKind.badStatus 429) "Request failed with status code 429")
    (by rfl) (by rfl) (by rfl)

/-! ## Claim C5 -/

/-- Whether an error is a raw axios transport/status error. -/
def isRawTransport : JsError → Bool
  | JsError.axios _ _ => true
  | _ => false

/-- The error inside a failed result; for a success it defaults to the
uniform orchestrator error, so an equation with that constant constrains
exactly the failure case. -/
def errOf : Except JsError PriceRecord → JsError
  | Except.error e => e
  | Except.ok _ => JsError.jsErr allFailedMsg

/-- A world where the key is present but the CoinMarketCap call fails at
the transport level. -/
def wCmcNetFail : World :=
  ⟨some "demo-key", Except.error (JsError.axios AxiosKind.network "connect ECONNREFUSED"),
    Except.error (JsError.jsErr "unused")⟩

/-- Counterexample to C5: the provider function does not classify
failures into a uniform provider error — its `catch` block rethrows the
raw error unchanged, so the raw axios transport exception itself is what
reaches its caller (the fallback orchestrator). -/
theorem c5_counterexample :
    (getBitcoinPriceFromCMC wCmcNetFail).1 =
        Except.error (JsError.axios AxiosKind.network "connect ECONNREFUSED") ∧
      isRawTransport (errOf (getBitcoinPriceFromCMC wCmcNetFail).1) = true := by
  constructor <;> rfl

/-- C5 (amended): absence of the credential is raised before any network
call (empty call trace); every other provider failure is rethrown to the
orchestrator unchanged — not wrapped in a uniform provider error — and
the orchestrator absorbs all of them: the only error the fallback lookup
itself can produce is the uniform generic one. -/
theorem c5_amended_classification (w : World) (k : String) (e : JsError)
    (net : Except JsError CMCPayload) (gnet : Except JsError GeckoPayload)
    (hk : ¬ k = "") :
    getBitcoinPriceFromCMC ⟨none, net, gnet⟩ =
        (Except.error (JsError.jsErr missingKeyMsg), []) ∧
      getBitcoinPriceFromCMC ⟨some k, Except.error e, gnet⟩ = (Except.error e, [NetCall.cmc]) ∧
      errOf (getBitcoinPrice w).1 = JsError.jsErr allFailedMsg := by
  refine ⟨rfl, by simp [getBitcoinPriceFromCMC, hk], ?_⟩
  rcases hc : getBitcoinPriceFromCMC w with ⟨cres, ctr⟩
  rcases cres with e1 | r1
  · rcases hg : getBitcoinPriceFromCoinGecko w with ⟨gres, gtr⟩
    rcases gres with e2 | r2 <;> simp [getBitcoinPrice, errOf, hc, hg]
  · simp [getBitcoinPrice, errOf, hc]

/-- Witness for the amended C5 at concrete inputs. -/
theorem c5_amended_classification_witness :
    getBitcoinPriceFromCMC ⟨none, Except.error (JsError.jsErr "x"),
        Except.error (JsError.jsErr "y")⟩ =
        (Except.error (JsError.jsErr missingKeyMsg), []) ∧
      getBitcoinPriceFromCMC ⟨some "demo-key",
          Except.error (JsError.axios AxiosKind.network "connect ECONNREFUSED"),
          Except.error (JsError.jsErr "y")⟩ =
        (Except.error (JsError.axios AxiosKind.network "connect ECONNREFUSED"), [NetCall.cmc]) ∧
      errOf (getBitcoinPrice wBothFail).1 = JsError.jsErr allFailedMsg :=
  c5_amended_classification wBothFail "demo-key"
    (JsError.axios AxiosKind.network "connect ECONNREFUSED")
    (Except.error (JsError.jsErr "x")) (Except.error (JsError.jsErr "y")) (by decide)

/-! ## Claim C4 -/

/-- The message Node's `JSON.parse` produces for the body `"not json"`. -/
def parseFailMsg : String := "Unexpected token o in JSON at position 1"

/-- String prefix test on the underlying character lists. -/
def strStartsWith (s pre : String) : Bool := s.data.take pre.data.length == pre.data

/-- Appending exposes the prefix. -/
theorem strData_append (a b : String) : (a ++ b).data = a.data ++ b.data := by
  cases a; cases b; rfl

/-- A string extended on the right starts with itself. -/
theorem strStartsWith_append (pre s : String) : strStartsWith (pre ++ s) pre = true := by
  simp [strStartsWith, strData_append, List.take_left]

/-- Counterexample to C4: a request body that fails to parse is answered
with HTTP 500 — a server-error status, not the claimed 4xx client-error
status. -/
theorem c4_counterexample :
    (executeResponse (Except.error (JsError.parseError parseFailMsg)) wBothFail).status = 500 ∧
      (Nat.ble 400 (executeResponse (Except.error (JsError.parseError parseFailMsg))
            wBothFail).status &&
        Nat.ble (executeResponse (Except.error (JsError.parseError parseFailMsg))
            wBothFail).status 499) = false := by
  constructor <;> rfl

/-- C4 (amended): an unparsable body still gets a structured JSON error
response `{"error":{"message": parser message}}` over the open connection
— but with status 500 (server error), not a 4xx status.  The message
class remains distinguishable from the other two error classes: every
unknown-tool message starts with `"Unknown tool: "`, while the parse
failure message and the all-providers-failed message do not, and those
two differ from each other. -/
theorem c4_amended_malformed_500 (w : World) (msg s : String) :
    executeResponse (Except.error (JsError.parseError msg)) w = ⟨500, errorBody msg⟩ ∧
      strStartsWith ("Unknown tool: " ++ s) "Unknown tool: " = true ∧
      strStartsWith parseFailMsg "Unknown tool: " = false ∧
      strStartsWith allFailedMsg "Unknown tool: " = false ∧
      (parseFailMsg == allFailedMsg) = false :=
  ⟨rfl, strStartsWith_append "Unknown tool: " s, by decide, by decide, by decide⟩

/-! ## Claim C6 -/

/-- C6: a parsed body whose `name` is anything other than the registered
tool name (including a missing `name`, a number, an array, …) gets the
structured unknown-tool response with status 400 — a client-error status
in 400..499 — over the open connection. -/
theorem c6_unknown_tool (w : World) (v : JsonVal) (nv : Option JsonVal)
    (h1 : jsGetProp v "name" = Except.ok nv)
    (h2 : isToolCall nv = false) :
    executeResponse (Except.ok v) w = unknownToolResponse nv ∧
      unknownToolResponse nv = ⟨400, errorBody ("Unknown tool: " ++ displayOpt nv)⟩ ∧
      (Nat.ble 400 (executeResponse (Except.ok v) w).status &&
        Nat.ble (executeResponse (Except.ok v) w).status 499) = true := by
  have hresp : executeResponse (Except.ok v) w = unknownToolResponse nv := by
    simp only [executeResponse, h1]
    cases nv with
    | none => rfl
    | some x =>
      cases x with
      | str s =>
        have hs : ¬ s = "get-bitcoin-price" := by simpa [isToolCall] using h2
        simp [hs]
      | null => rfl
      | bool b => rfl
      | num q => rfl
      | arr es => rfl
      | obj fs => rfl
  refine ⟨hresp, rfl, ?_⟩
  rw [hresp]
  rfl

/-- The request body `{"name":"not-a-real-tool","arguments":{}}`. -/
def reqUnknownTool : JsonVal :=
  JsonVal.obj [("name", JsonVal.str "not-a-real-tool"), ("arguments", JsonVal.obj [])]

/-- Witness for C6 at the spec's own example request. -/
theorem c6_unknown_tool_witness :
    executeResponse (Except.ok reqUnknownTool) wBothFail =
        unknownToolResponse (some (JsonVal.str "not-a-real-tool")) ∧
      unknownToolResponse (some (JsonVal.str "not-a-real-tool")) =
        ⟨400, errorBody ("Unknown tool: " ++ displayOpt (some (JsonVal.str "not-a-real-tool")))⟩ ∧
      (Nat.ble 400 (executeResponse (Except.ok reqUnknownTool) wBothFail).status &&
        Nat.ble (executeResponse (Except.ok reqUnknownTool) wBothFail).status 499) = true :=
  c6_unknown_tool wBothFail reqUnknownTool (some (JsonVal.str "not-a-real-tool"))
    (by rfl) (by rfl)

/-! ## Claim C7 -/

/-- C7: the discovery body of `GET /`, the payload of the first SSE frame
of `GET /events`, and the serialized registry are the very same string
`Json.stringify mcp` — and the discovery route's reply is one fixed value
independent of the request body and of the provider world, so every
discovery read is pure and deterministic. -/
theorem c7_discovery_identical (p1 p2 : Except JsError JsonVal) (w1 w2 : World) (d : ℕ) :
    handleRequest "GET" "/" p1 w1 = ConnReply.done ⟨200, Json.stringify mcp⟩ ∧
      handleRequest "GET" "/" p1 w1 = handleRequest "GET" "/" p2 w2 ∧
      (sseWrites d).head? = some ("data: " ++ Json.stringify mcp ++ "\n\n") ∧
      discoveryFrame = "data: " ++ Json.stringify mcp ++ "\n\n" :=
  ⟨rfl, rfl, rfl, rfl⟩

/-! ## Claim C10 -/

/-- C10: the `/execute` handler reads nothing of a parsed body except its
`name` property — two parsed bodies with the same `name` value get
identical responses in every world (same provider behavior), so the
`arguments` field and any other fields cannot influence the outcome. -/
theorem c10_arguments_noninterference (w : World) (v1 v2 : JsonVal)
    (h : jsGetProp v1 "name" = jsGetProp v2 "name") :
    executeResponse (Except.ok v1) w = executeResponse (Except.ok v2) w := by
  simp only [executeResponse]
  rw [h]

/-- A tool-call body with extra fields and nonempty arguments. -/
def reqToolCallArgs : JsonVal :=
  JsonVal.obj [("name", JsonVal.str "get-bitcoin-price"),
    ("arguments", JsonVal.obj [("verbose", JsonVal.bool true)]),
    ("extra", JsonVal.num (mkRat 7 1))]

/-- Witness for C10: same `name`, different `arguments`, same response. -/
theorem c10_arguments_noninterference_witness :
    executeResponse (Except.ok reqToolCall) wBothFail =
      executeResponse (Except.ok reqToolCallArgs) wBothFail :=
  c10_arguments_noninterference wBothFail reqToolCall reqToolCallArgs (by rfl)

/-! ## Claim C8 -/

/-- The first SSE write's character data starts with the `data: ` tag. -/
theorem discoveryFrame_data :
    discoveryFrame.data = "data: ".data ++ ((Json.stringify mcp).data ++ "\n\n".data) := by
  simp [discoveryFrame, strData_append, List.append_assoc]

/-- The discovery frame is a `data:` event. -/
theorem discovery_is_data : isDataFrame discoveryFrame = true := by
  simp only [isDataFrame, discoveryFrame_data]
  rw [List.take_left' (by decide)]
  simp

/-- The heartbeat write is not a `data:` event. -/
theorem heartbeat_not_data : isDataFrame heartbeatFrame = false := by decide

/-- The discovery frame is not the heartbeat comment. -/
theorem discovery_not_heartbeat : isHeartbeatFrame discoveryFrame = false := by
  simp only [isHeartbeatFrame]
  rw [beq_eq_false_iff_ne]
  intro heq
  have h1 : discoveryFrame.data.head? = some ':' := by rw [heq]; rfl
  have h2 : discoveryFrame.data.head? = some 'd' := by rw [discoveryFrame_data]; rfl
  rw [h1] at h2
  exact absurd h2 (by decide)

/-- The heartbeat write is the heartbeat comment. -/
theorem heartbeat_is_heartbeat : isHeartbeatFrame heartbeatFrame = true := by decide

/-- C8: the SSE stream sends the discovery payload exactly once, as its
first write at open, and a connection held open for at least 90 time
units receives at least two heartbeat signals. -/
theorem c8_heartbeats (d : ℕ) (h : 90 ≤ d) :
    2 ≤ (sseWrites d).countP isHeartbeatFrame ∧
      (sseWrites d).countP isDataFrame = 1 ∧
      (sseWrites d).head? = some discoveryFrame := by
  have hmap : ∀ L : List ℕ, (L.map (fun _ => heartbeatFrame)).countP isHeartbeatFrame =
      L.length := by
    intro L
    induction L with
    | nil => rfl
    | cons a L ih =>
      rw [List.map_cons, List.countP_cons, ih, List.length_cons]
      simp [heartbeat_is_heartbeat]
  have hmap0 : ∀ L : List ℕ, (L.map (fun _ => heartbeatFrame)).countP isDataFrame = 0 := by
    intro L
    induction L with
    | nil => rfl
    | cons a L ih =>
      rw [List.map_cons, List.countP_cons, ih]
      simp [heartbeat_not_data]
  refine ⟨?_, ?_, rfl⟩
  · have hmono : (List.range 90).countP (fun t => t % 30 == 0 && t != 0) ≤
        (List.range d).countP (fun t => t % 30 == 0 && t != 0) :=
      (List.range_sublist.mpr h).countP_le _
    have h90 : (List.range 90).countP (fun t => t % 30 == 0 && t != 0) = 2 := by decide
    have hlen : ((List.range d).filter (fun t => t % 30 == 0 && t != 0)).length =
        (List.range d).countP (fun t => t % 30 == 0 && t != 0) :=
      (List.countP_eq_length_filter _ _).symm
    simp only [sseWrites, List.countP_cons, discovery_not_heartbeat, hmap, hlen]
    omega
  · simp only [sseWrites, List.countP_cons, discovery_is_data, hmap0]
    rfl

/-- Witness for C8 at a connection held open for exactly 90 time units. -/
theorem c8_heartbeats_witness :
    2 ≤ (sseWrites 90).countP isHeartbeatFrame ∧
      (sseWrites 90).countP isDataFrame = 1 ∧
      (sseWrites 90).head? = some discoveryFrame :=
  c8_heartbeats 90 (by decide)
